import Mathlib

/-!
Shallow embedding of the wasmedgeup CLI (a version manager for the WasmEdge
runtime and its plugins), translated from the Rust sources:

* `src/platform.rs`   — OS / architecture model, naming tokens, overrides
* `src/downloader.rs` — checksum verification
* `src/installer.rs`  — runtime install: URL building, extraction, env script
* `src/plugin.rs`     — plugin install / list / remove

Strings are modelled as Lean `String` (a list of unicode scalar values);
Rust byte indexing appears only after an ASCII prefix has been established,
where the byte index and the character index agree.  Filesystem and network
effects are modelled by explicit inputs (directory listings, a download
oracle) and explicit outputs (move plans, attempted URLs, results).
-/

namespace Wasmedgeup

/-! ## Platform data model (src/platform.rs) -/

inductive LinuxDistro
  | Ubuntu
  | Generic
deriving DecidableEq, Fintype

inductive OS
  | Linux (distro : LinuxDistro)
  | Darwin
  | Windows
deriving DecidableEq, Fintype

/-- `Architecture` in src/platform.rs has three variants; `Aarch64` and
`Arm64` are distinct constructors that render identically. -/
inductive Architecture
  | X86_64
  | Aarch64
  | Arm64
deriving DecidableEq, Fintype

inductive PlatformError
  | UnsupportedOS (s : String)
  | UnsupportedArch (s : String)
  | DetectionError (s : String)
deriving DecidableEq

instance {ε α : Type} [DecidableEq ε] [DecidableEq α] : DecidableEq (Except ε α) :=
  fun x y =>
    match x, y with
    | .ok a, .ok b => decidable_of_iff (a = b) (by simp)
    | .error a, .error b => decidable_of_iff (a = b) (by simp)
    | .ok _, .error _ => isFalse (by simp)
    | .error _, .ok _ => isFalse (by simp)

structure Platform where
  os : OS
  arch : Architecture
deriving DecidableEq, Fintype

/-- `impl fmt::Display for OS`. -/
def OS.display : OS → String
  | .Linux .Ubuntu => "Ubuntu"
  | .Linux .Generic => "Linux"
  | .Darwin => "Darwin"
  | .Windows => "Windows"

/-- `impl fmt::Display for Architecture`: `Aarch64 | Arm64` both render
as `"arm64"`. -/
def Architecture.display : Architecture → String
  | .X86_64 => "x86_64"
  | .Aarch64 => "arm64"
  | .Arm64 => "arm64"

/-- Rust `str::to_lowercase`, restricted to per-character lowercasing
(faithful on ASCII, which is all the decision logic compares against). -/
def toLowercase (s : String) : String :=
  String.mk (s.data.map Char.toLower)

/-- `Architecture::from_str`: matches on the lowercased input; the
fallthrough arm binds the lowercased string, and that is what the
`UnsupportedArch` error carries. -/
def Architecture.from_str (arch : String) : Except PlatformError Architecture :=
  if toLowercase arch = "x86_64" ∨ toLowercase arch = "amd64" then
    .ok .X86_64
  else if toLowercase arch = "aarch64" ∨ toLowercase arch = "arm64" then
    .ok .Aarch64
  else
    .error (.UnsupportedArch (toLowercase arch))

/-- `OS::from_str`. -/
def OS.from_str (os : String) : Except PlatformError OS :=
  if toLowercase os = "linux" then .ok (.Linux .Generic)
  else if toLowercase os = "ubuntu" then .ok (.Linux .Ubuntu)
  else if toLowercase os = "darwin" then .ok .Darwin
  else if toLowercase os = "windows" then .ok .Windows
  else .error (.UnsupportedOS (toLowercase os))

/-- `Platform::get_release_package_name` (src/platform.rs, lines 124–133):
the release artifact file name; the `version` argument is ignored by the
source (`_version`). -/
def Platform.get_release_package_name (p : Platform) ( _version : String) : String :=
  match p.os with
  | .Linux .Ubuntu => "ubuntu20.04_" ++ p.arch.display ++ ".tar.gz"
  | .Linux .Generic => "manylinux2014_" ++ p.arch.display ++ ".tar.gz"
  | .Darwin => "darwin_" ++ p.arch.display ++ ".tar.gz"
  | .Windows => "windows_" ++ p.arch.display ++ ".tar.gz"

/-- The architectures that `Architecture::detect` and
`Architecture::from_str` can actually produce: `Arm64` is a dead variant,
never constructed by either resolver. -/
def Architecture.resolvable (a : Architecture) : Prop :=
  a = .X86_64 ∨ a = .Aarch64

instance (a : Architecture) : Decidable a.resolvable := by
  unfold Architecture.resolvable
  infer_instance

/-! ## Downloader (src/downloader.rs) -/

/-- One lowercase hexadecimal digit, as produced by `hex::encode`. -/
def hexDigit (n : Nat) : Char :=
  if n < 10 then Char.ofNat (48 + n) else Char.ofNat (87 + n)

/-- `hex::encode` on a byte sequence: two lowercase hex digits per byte. -/
def hexEncode (bytes : List Nat) : String :=
  String.mk (bytes.foldr (fun b acc => hexDigit (b % 256 / 16) :: hexDigit (b % 16) :: acc) [])

/-- The read loop of `verify_checksum`: repeatedly read up to 8192 bytes
into the buffer and feed `buffer[..n]` to the hasher, stopping at a zero
read; the hasher state is the byte sequence absorbed so far.  `fuel`
bounds the iterations (each nonzero read consumes input, so
`content.length` iterations always suffice). -/
def hashReadLoop : Nat → List Nat → List Nat → List Nat
  | 0, acc, _ => acc
  | fuel + 1, acc, content =>
    let n := min 8192 content.length
    if n = 0 then acc
    else hashReadLoop fuel (acc ++ content.take n) (content.drop n)

/-- `Downloader::verify_checksum` (src/downloader.rs, lines 59–74) on a
readable file with contents `content`.  `sha256` is the digest function of
the external `sha2` crate, passed as a parameter; the code hex-encodes the
digest of everything the read loop absorbed and compares it to
`expected_sha256` with Rust `==` on strings (byte-for-byte), returning the
boolean in `Ok`. -/
def verify_checksum (sha256 : List Nat → List Nat) (content : List Nat)
    (expected_sha256 : String) : Except String Bool :=
  .ok (hexEncode (sha256 (hashReadLoop content.length [] content)) == expected_sha256)

/-! ## Plugin manager (src/plugin.rs) -/

/-- `PluginManager::get_platform_string` (src/plugin.rs, lines 68–77). -/
def get_platform_string (p : Platform) : String :=
  match p.os with
  | .Linux .Ubuntu => "ubuntu20.04_" ++ p.arch.display
  | .Linux .Generic => "manylinux2014_" ++ p.arch.display
  | .Darwin => "darwin_" ++ p.arch.display
  | .Windows => "windows_" ++ p.arch.display

/-- URL plugin-name normalization inside `install_plugin` (src/plugin.rs,
lines 168–175): `plugin_name.find('-')` locates the first hyphen, and the
name is reassembled as `name[..pos] ++ "_" ++ name[pos+1..]`. -/
def url_plugin_name_chars (name : List Char) : List Char :=
  match name.findIdx? (· = '-') with
  | some pos => name.take pos ++ '_' :: name.drop (pos + 1)
  | none => name

def url_plugin_name (name : String) : String :=
  String.mk (url_plugin_name_chars name.data)

/-- The primary plugin download URL of `install_plugin` (lines 177–180):
the version appears both as the release tag and embedded in the file
name. -/
def plugin_primary_url (runtime_version url_name platform_string : String) : String :=
  "https://github.com/WasmEdge/WasmEdge/releases/download/" ++ runtime_version ++
    "/WasmEdge-plugin-" ++ url_name ++ "-" ++ runtime_version ++ "-" ++
    platform_string ++ ".tar.gz"

/-- The alternate plugin download URL (lines 198–201): identical to the
primary except the version segment embedded in the file name is omitted. -/
def plugin_alt_url (runtime_version url_name platform_string : String) : String :=
  "https://github.com/WasmEdge/WasmEdge/releases/download/" ++ runtime_version ++
    "/WasmEdge-plugin-" ++ url_name ++ "-" ++ platform_string ++ ".tar.gz"

/-- The terminal error message of `install_plugin` (lines 220–228). -/
def plugin_not_found_msg (plugin_name : String) (p : Platform)
    (runtime_version : String) : String :=
  "Failed to install plugin '" ++ plugin_name ++
    "'. The plugin may not be available for your platform (" ++ p.os.display ++
    " " ++ p.arch.display ++
    ") or the specified version. Available plugins for your platform can be found at: https://github.com/WasmEdge/WasmEdge/releases/tag/" ++
    runtime_version

/-- The observable outcome of one `install_plugin` call: the download URLs
attempted, in order, and the final result. -/
structure InstallOutcome where
  attempts : List String
  result : Except String Unit

/-- `PluginManager::install_plugin` (src/plugin.rs, lines 155–232).
Network and archive effects are oracles: `download_ok url` is whether
`download_file` on that URL succeeds, `extract_ok url` whether extracting
the archive downloaded from it succeeds.  On a download failure the code
tries exactly one alternate URL; an extraction failure bails immediately
(no alternate attempt). -/
def install_plugin (download_ok extract_ok : String → Bool)
    (runtime_version : String) (p : Platform) (plugin_name : String) :
    InstallOutcome :=
  let platform_string := get_platform_string p
  let url_name := url_plugin_name plugin_name
  let url := plugin_primary_url runtime_version url_name platform_string
  if download_ok url then
    if extract_ok url then ⟨[url], .ok ()⟩
    else ⟨[url], .error "Failed to extract plugin"⟩
  else
    let alt_url := plugin_alt_url runtime_version url_name platform_string
    if download_ok alt_url then
      if extract_ok alt_url then ⟨[url, alt_url], .ok ()⟩
      else ⟨[url, alt_url], .error "Failed to extract plugin"⟩
    else ⟨[url, alt_url], .error (plugin_not_found_msg plugin_name p runtime_version)⟩

/-- Rust `str::split(sep)` on a character list: splitting the empty string
yields one empty segment, and adjacent separators yield empty segments. -/
def splitChar (sep : Char) : List Char → List (List Char)
  | [] => [[]]
  | c :: rest =>
    if c = sep then [] :: splitChar sep rest
    else
      match splitChar sep rest with
      | [] => [[c]]
      | seg :: segs => (c :: seg) :: segs

/-- Title-casing of one hyphen-delimited segment in `remove_plugin`:
`s.chars().next().unwrap().to_uppercase().chain(s[1..].chars())`.  Two
panics are modelled as `none`: the `.unwrap()` on an empty segment
(`chars().next()` is `None`), and the `s[1..]` BYTE slice when the
segment's first character is multi-byte — byte index 1 is then not a char
boundary and the slice panics.  In the one remaining case the first
character is ASCII, where `s[1..]` is exactly the remaining characters and
Rust's `to_uppercase` yields the single character `Char.toUpper`
produces. -/
def titlecase_segment (s : List Char) : Option (List Char) :=
  match s with
  | [] => none
  | c :: rest => if c.toNat < 128 then some (c.toUpper :: rest) else none

/-- The plugin-name → library-file-name mapping of `remove_plugin`
(src/plugin.rs, lines 242–253).  It depends only on the plugin name (the
`version` argument of `remove_plugin` is not consulted).  A `none` result
models a panic in the title-casing step; `plugin_name[9..]` strips the
nine-character ASCII prefix `"wasmedge-"`. -/
def plugin_lib_name (plugin_name : String) : Option String :=
  if "wasi-nn-".data.isPrefixOf plugin_name.data then
    some "libwasmedgePluginWasiNN.dylib"
  else if "wasi-crypto".data.isPrefixOf plugin_name.data then
    some "libwasmedgePluginWasiCrypto.dylib"
  else if "wasmedge-".data.isPrefixOf plugin_name.data then
    ((splitChar '-' (plugin_name.data.drop 9)).mapM titlecase_segment).map
      (fun segs =>
        String.mk ("libwasmedgePluginWasmEdge".data ++ segs.flatten ++ ".dylib".data))
  else
    some (String.mk ("libwasmedgePlugin".data ++ plugin_name.data ++ ".dylib".data))

/-- One release asset as parsed from the GitHub API response. -/
structure ReleaseAsset where
  name : String
  browser_download_url : String

/-- The asset filter of `list_available_plugins` (src/plugin.rs, line 113):
name starts with `"WasmEdge-plugin-"` and ends with `".tar.gz"`. -/
def asset_eligible (name : String) : Bool :=
  "WasmEdge-plugin-".data.isPrefixOf name.data &&
    ".tar.gz".data.isSuffixOf name.data

/-- Plugin-name derivation from an asset name (lines 115–117): split on
`'-'`; with at least 4 parts, rejoin the slice `parts[2..len-2]` with
`"-"`; otherwise the asset is skipped (`none`). -/
def asset_plugin_name (name : String) : Option String :=
  let parts := splitChar '-' name.data
  if 4 ≤ parts.length then
    some (String.mk (List.intercalate ['-'] ((parts.take (parts.length - 2)).drop 2)))
  else
    none

/-- The asset loop of `PluginManager::list_available_plugins`
(src/plugin.rs, lines 97–131): `seen` models the `HashSet` of plugin names
already emitted. -/
def list_available_plugins_go (runtime_version platform_string : String)
    (seen : List String) : List ReleaseAsset → List (String × String × Bool)
  | [] => []
  | asset :: rest =>
    if asset_eligible asset.name then
      match asset_plugin_name asset.name with
      | some pname =>
        if seen.contains pname then
          list_available_plugins_go runtime_version platform_string seen rest
        else
          (pname, runtime_version, decide (platform_string.data <:+: asset.name.data)) ::
            list_available_plugins_go runtime_version platform_string (pname :: seen) rest
      | none => list_available_plugins_go runtime_version platform_string seen rest
    else
      list_available_plugins_go runtime_version platform_string seen rest

/-- `PluginManager::list_available_plugins`, as a function of the asset
list returned by the release-metadata API.  Each result entry is
`(plugin name, version, compatible)`. -/
def list_available_plugins (runtime_version platform_string : String)
    (assets : List ReleaseAsset) : List (String × String × Bool) :=
  list_available_plugins_go runtime_version platform_string [] assets

/-- De-duplication by plugin name, first occurrence kept (used by the
specification-level restatement of claim C7). -/
def dedupe_by_name (seen : List String) :
    List (String × String × Bool) → List (String × String × Bool)
  | [] => []
  | e :: rest =>
    if seen.contains e.1 then dedupe_by_name seen rest
    else e :: dedupe_by_name (e.1 :: seen) rest

/-- Specification-level restatement of `list_available_plugins`, following
the spec's wording for claim C7: keep exactly the assets whose name starts
with `"WasmEdge-plugin-"` and ends with `".tar.gz"`, derive an entry from
each asset with at least 4 hyphen-delimited segments (joining segments
`[2, len-2)` with `"-"`, compatible iff the asset name contains the
platform token), skip the rest, and de-duplicate by plugin name keeping
the first occurrence. -/
def list_available_plugins_spec (runtime_version platform_string : String)
    (assets : List ReleaseAsset) : List (String × String × Bool) :=
  dedupe_by_name []
    ((assets.filter (fun a => asset_eligible a.name)).filterMap
      (fun a => (asset_plugin_name a.name).map
        (fun pname =>
          (pname, runtime_version, decide (platform_string.data <:+: a.name.data)))))

/-! ## Installer (src/installer.rs) -/

/-- The runtime release download URL built by `install_runtime`
(src/installer.rs, lines 48–57). -/
def install_download_url (p : Platform) (version : String) : String :=
  "https://github.com/WasmEdge/WasmEdge/releases/download/" ++ version ++
    "/WasmEdge-" ++ version ++ "-" ++ p.get_release_package_name version

/-- The extracted-root directory `extract_archive` (src/installer.rs,
lines 71–115) redistributes from:
`self.temp_dir.join(format!(\x7b...\x7d))` with the `Display` renderings of
the OS and architecture.  Paths are modelled with `"/"` as separator. -/
def extracted_dir (temp_dir : String) (p : Platform) : String :=
  temp_dir ++ "/WasmEdge-" ++ p.os.display ++ "-" ++ p.arch.display

/-- The `fs::rename` calls for one subdirectory listing: `none` models a
subdirectory whose `read_dir` fails, which the code silently skips. -/
def listing_moves (src dst : String) : Option (List String) → List (String × String)
  | none => []
  | some entries => entries.map (fun e => (src ++ "/" ++ e, dst ++ "/" ++ e))

/-- The redistribution performed by `extract_archive`: every entry of the
extracted `bin` goes to `install/bin`, entries of `lib64` (if that
directory exists) or else `lib` go to `install/lib`, and entries of
`include` go to `install/include`.  The listings are inputs;
`lib64_exists` is the `extracted_dir.join("lib64").exists()` test. -/
def extract_archive_moves (temp_dir install_path : String) (p : Platform)
    (lib64_exists : Bool)
    (bin_entries lib_entries include_entries : Option (List String)) :
    List (String × String) :=
  let ed := extracted_dir temp_dir p
  listing_moves (ed ++ "/bin") (install_path ++ "/bin") bin_entries ++
    listing_moves (if lib64_exists then ed ++ "/lib64" else ed ++ "/lib")
      (install_path ++ "/lib") lib_entries ++
    listing_moves (ed ++ "/include") (install_path ++ "/include") include_entries

/-- The path of the environment script written by `setup_environment`
(src/installer.rs, line 118). -/
def env_file_path (install_path : String) : String :=
  install_path ++ "/env"

/-- The OS-specific content of the environment script
(src/installer.rs, lines 122–139). -/
def env_file_content (os : OS) (install_path : String) : String :=
  match os with
  | .Linux _ =>
    "#!/bin/sh\n" ++
      "export PATH=" ++ install_path ++ "/bin" ++ ":$PATH\n" ++
      "export LD_LIBRARY_PATH=" ++ install_path ++ "/lib" ++ ":$LD_LIBRARY_PATH\n"
  | .Darwin =>
    "#!/bin/sh\n" ++
      "export PATH=" ++ install_path ++ "/bin" ++ ":$PATH\n" ++
      "export DYLD_LIBRARY_PATH=" ++ install_path ++ "/lib" ++ ":$DYLD_LIBRARY_PATH\n"
  | .Windows =>
    "@echo off\n" ++ "set PATH=" ++ install_path ++ "/bin" ++ ";%PATH%\n"

/-! ## Theorems -/

/-- The release-package-name function ignores its version argument. -/
theorem get_release_package_name_version_irrelevant (p : Platform) (v w : String) :
    p.get_release_package_name v = p.get_release_package_name w := rfl

/-- Anything `Architecture::from_str` accepts is a resolvable
architecture: the `Arm64` variant is never produced. -/
theorem Architecture.from_str_resolvable (s : String) (a : Architecture)
    (h : Architecture.from_str s = .ok a) : a.resolvable := by
  unfold Architecture.from_str at h
  split at h
  · exact Or.inl (Except.ok.inj h).symm
  · split at h
    · exact Or.inr (Except.ok.inj h).symm
    · exact absurd h (by simp)

/-- C4: for every supported platform tuple — one whose architecture the
platform resolver can actually produce — the release-naming function yields
exactly one token (it does not depend on the version argument), and the
mapping is injective: distinct supported tuples yield distinct tokens. -/
theorem C4_release_naming_injective (p q : Platform) (v w : String)
    (hp : p.arch.resolvable) (hq : q.arch.resolvable) :
    p.get_release_package_name v = p.get_release_package_name w ∧
    (p.get_release_package_name v = q.get_release_package_name w → p = q) := by
  refine ⟨rfl, ?_⟩
  rw [get_release_package_name_version_irrelevant p v "",
    get_release_package_name_version_irrelevant q w ""]
  revert hp hq
  revert p q
  decide

/-- Witness for C4 at concrete supported platforms. -/
theorem C4_release_naming_injective_witness :
    (Platform.mk (.Linux .Ubuntu) .X86_64).get_release_package_name "0.14.1" =
      (Platform.mk (.Linux .Ubuntu) .X86_64).get_release_package_name "0.13.5" ∧
    ((Platform.mk (.Linux .Ubuntu) .X86_64).get_release_package_name "0.14.1" =
        (Platform.mk .Darwin .Aarch64).get_release_package_name "0.13.5" →
      Platform.mk (.Linux .Ubuntu) .X86_64 = Platform.mk .Darwin .Aarch64) :=
  C4_release_naming_injective (Platform.mk (.Linux .Ubuntu) .X86_64)
    (Platform.mk .Darwin .Aarch64) "0.14.1" "0.13.5" (Or.inl rfl) (Or.inr rfl)

/-- C9 counterexample: the claim says the `UnsupportedArch` error carries
the raw input as supplied by the user, but the fallthrough match arm binds
the lowercased string, so `"RISCV64"` comes back as `"riscv64"`. -/
theorem C9_counterexample :
    Architecture.from_str "RISCV64" = .error (.UnsupportedArch "riscv64") ∧
    (∀ e : PlatformError,
        Architecture.from_str "RISCV64" = .error e → e ≠ .UnsupportedArch "RISCV64") := by
  refine ⟨by decide, ?_⟩
  intro e he
  rw [show Architecture.from_str "RISCV64" = .error (.UnsupportedArch "riscv64") by
    decide] at he
  rw [← Except.error.inj he]
  decide

/-- C9 (amended): `"x86_64"`/`"amd64"` normalize case-insensitively to
`X86_64`, `"aarch64"`/`"arm64"` to `Aarch64`, and every other input yields
an `UnsupportedArch` error carrying the LOWERCASED input string. -/
theorem C9_from_str_amended :
    (∀ s : String, (toLowercase s = "x86_64" ∨ toLowercase s = "amd64") →
      Architecture.from_str s = .ok .X86_64) ∧
    (∀ s : String, (toLowercase s = "aarch64" ∨ toLowercase s = "arm64") →
      Architecture.from_str s = .ok .Aarch64) ∧
    (∀ s : String,
      toLowercase s ≠ "x86_64" → toLowercase s ≠ "amd64" →
      toLowercase s ≠ "aarch64" → toLowercase s ≠ "arm64" →
      Architecture.from_str s = .error (.UnsupportedArch (toLowercase s))) := by
  refine ⟨?_, ?_, ?_⟩
  · intro s h
    unfold Architecture.from_str
    rw [if_pos h]
  · intro s h
    unfold Architecture.from_str
    rw [if_neg, if_pos h]
    rcases h with h | h <;> rw [h] <;> decide
  · intro s h1 h2 h3 h4
    unfold Architecture.from_str
    rw [if_neg, if_neg]
    · exact fun h => h.elim h3 h4
    · exact fun h => h.elim h1 h2

/-- Witness for C9 (amended) at concrete inputs. -/
theorem C9_from_str_amended_witness :
    Architecture.from_str "AMD64" = .ok .X86_64 ∧
    Architecture.from_str "Arm64" = .ok .Aarch64 ∧
    Architecture.from_str "mips" = .error (.UnsupportedArch "mips") :=
  ⟨C9_from_str_amended.1 "AMD64" (Or.inr (by decide)),
   C9_from_str_amended.2.1 "Arm64" (Or.inr (by decide)),
   C9_from_str_amended.2.2 "mips" (by decide) (by decide)
     (by decide) (by decide)⟩

/-- The chunked read loop of `verify_checksum` absorbs exactly the whole
file content, in order, whenever the fuel covers the content length. -/
theorem hashReadLoop_absorbs (fuel : Nat) :
    ∀ acc content : List Nat, content.length ≤ fuel →
      hashReadLoop fuel acc content = acc ++ content := by
  induction fuel with
  | zero =>
    intro acc content h
    have hc : content = [] := List.eq_nil_of_length_eq_zero (Nat.le_zero.mp h)
    subst hc
    simp [hashReadLoop]
  | succ n ih =>
    intro acc content h
    by_cases hc : content = []
    · subst hc
      simp [hashReadLoop]
    · have hlen : 0 < content.length := List.length_pos.mpr hc
      have hne : ¬ min 8192 content.length = 0 := by
        have := lt_min (show (0 : Nat) < 8192 by norm_num) hlen
        omega
      rw [hashReadLoop]
      simp only [hne, if_false]
      rw [ih]
      · rw [List.append_assoc, List.take_append_drop]
      · have hdrop : (content.drop (min 8192 content.length)).length =
            content.length - min 8192 content.length := List.length_drop _ _
        omega

/-- C3: `verify_checksum` on a readable file returns `Ok` of the
byte-for-byte (case-sensitive) equality between the lowercase hex encoding
of the SHA-256 digest of the full file content and the expected string;
it returns `Ok true` exactly on equality, `Ok false` (never an error) on
any mismatch. -/
theorem C3_verify_checksum (sha256 : List Nat → List Nat) (content : List Nat)
    (expected : String) :
    verify_checksum sha256 content expected =
      .ok (hexEncode (sha256 content) == expected) ∧
    (verify_checksum sha256 content expected = .ok true ↔
      hexEncode (sha256 content) = expected) ∧
    (∃ b : Bool, verify_checksum sha256 content expected = .ok b) := by
  have habs : hashReadLoop content.length [] content = content := by
    rw [hashReadLoop_absorbs content.length [] content (le_refl _)]
    simp
  unfold verify_checksum
  rw [habs]
  refine ⟨rfl, ?_, ⟨_, rfl⟩⟩
  constructor
  · intro h
    have := Except.ok.inj h
    exact eq_of_beq this
  · intro h
    rw [h]
    simp

/-- C6 helper: `findIdx?` locates the hyphen right after a hyphen-free
block, at the block's length plus the accumulator. -/
theorem findIdx?_hyphen_after_clean (b : List Char) :
    ∀ (a : List Char) (i : Nat), '-' ∉ a →
      List.findIdx? (· = '-') (a ++ '-' :: b) i = some (i + a.length) := by
  intro a
  induction a with
  | nil =>
    intro i _
    simp [List.findIdx?_cons]
  | cons c cs ih =>
    intro i hne
    have hc : ¬ (c = '-') := fun h => hne (h ▸ List.mem_cons_self c cs)
    have hcs : '-' ∉ cs := fun h => hne (List.mem_cons_of_mem c h)
    rw [List.cons_append, List.findIdx?_cons]
    simp only [decide_eq_true_eq, hc, if_false]
    rw [ih (i + 1) hcs]
    congr 1
    simp [List.length_cons]
    omega

/-- C6 helper: `findIdx?` finds nothing in a hyphen-free list. -/
theorem findIdx?_no_hyphen (a : List Char) :
    ∀ i : Nat, '-' ∉ a → List.findIdx? (· = '-') a i = none := by
  induction a with
  | nil => intro i _; simp [List.findIdx?_nil]
  | cons c cs ih =>
    intro i hne
    have hc : ¬ (c = '-') := fun h => hne (h ▸ List.mem_cons_self c cs)
    rw [List.findIdx?_cons]
    simp only [decide_eq_true_eq, hc, if_false]
    exact ih (i + 1) (fun h => hne (List.mem_cons_of_mem c h))

/-- C6 helper: normalization on a name whose first hyphen separates the
hyphen-free block `a` from the remainder `b`. -/
theorem url_plugin_name_chars_split (a b : List Char) (ha : '-' ∉ a) :
    url_plugin_name_chars (a ++ '-' :: b) = a ++ '_' :: b := by
  unfold url_plugin_name_chars
  rw [findIdx?_hyphen_after_clean b a 0 ha]
  simp only [Nat.zero_add]
  have ht : (a ++ '-' :: b).take a.length = a := by
    rw [List.take_append_of_le_length (le_refl _)]
    simp
  have hd : (a ++ '-' :: b).drop (a.length + 1) = b := by
    have : a ++ '-' :: b = (a ++ ['-']) ++ b := by simp
    rw [this, List.drop_append_of_le_length (by simp)]
    simp
  rw [ht, hd]

/-- C6: the URL name normalization replaces only the first hyphen with an
underscore: on `a ++ "-" ++ b` with `a` hyphen-free the result is
`a ++ "_" ++ b` (any later hyphens in `b` survive), a hyphen-free name is
unchanged, and concretely `"wasi-nn-ggml"` normalizes to `"wasi_nn-ggml"`,
not `"wasi_nn_ggml"`. -/
theorem C6_first_hyphen_only (a b n : List Char)
    (ha : '-' ∉ a) (hn : '-' ∉ n) :
    url_plugin_name_chars (a ++ '-' :: b) = a ++ '_' :: b ∧
    url_plugin_name_chars n = n ∧
    url_plugin_name "wasi-nn-ggml" = "wasi_nn-ggml" ∧
    url_plugin_name "wasi-nn-ggml" ≠ "wasi_nn_ggml" := by
  refine ⟨url_plugin_name_chars_split a b ha, ?_, by decide, by decide⟩
  unfold url_plugin_name_chars
  rw [findIdx?_no_hyphen n 0 hn]

/-- Witness for C6 at a concrete split of `"wasi-nn-ggml"`. -/
theorem C6_first_hyphen_only_witness :
    url_plugin_name_chars ("wasi".data ++ '-' :: "nn-ggml".data) =
      "wasi".data ++ '_' :: "nn-ggml".data ∧
    url_plugin_name_chars "x86".data = "x86".data ∧
    url_plugin_name "wasi-nn-ggml" = "wasi_nn-ggml" ∧
    url_plugin_name "wasi-nn-ggml" ≠ "wasi_nn_ggml" :=
  C6_first_hyphen_only "wasi".data "nn-ggml".data "x86".data
    (by decide) (by decide)

/-- Appending after the `"wasmedge-"` prefix, at the character level. -/
theorem wasmedge_append_data (s : String) :
    ("wasmedge-" ++ s).data =
      'w' :: 'a' :: 's' :: 'm' :: 'e' :: 'd' :: 'g' :: 'e' :: '-' :: s.data := by
  rw [String.data_append]
  rfl

/-- A `"wasmedge-"`-prefixed name never matches the `"wasi-nn-"` branch. -/
theorem wasi_nn_branch_not_taken (l : List Char) :
    "wasi-nn-".data.isPrefixOf
      ('w' :: 'a' :: 's' :: 'm' :: 'e' :: 'd' :: 'g' :: 'e' :: '-' :: l) = false := rfl

/-- A `"wasmedge-"`-prefixed name never matches the `"wasi-crypto"` branch. -/
theorem wasi_crypto_branch_not_taken (l : List Char) :
    "wasi-crypto".data.isPrefixOf
      ('w' :: 'a' :: 's' :: 'm' :: 'e' :: 'd' :: 'g' :: 'e' :: '-' :: l) = false := rfl

/-- A `"wasmedge-"`-prefixed name always matches the `"wasmedge-"` branch. -/
theorem wasmedge_branch_taken (l : List Char) :
    "wasmedge-".data.isPrefixOf
      ('w' :: 'a' :: 's' :: 'm' :: 'e' :: 'd' :: 'g' :: 'e' :: '-' :: l) = true := by
  simp [List.isPrefixOf]

/-- The `"wasmedge-"` branch of the library-name mapping, in closed form:
split the remainder on hyphens, title-case every segment (`none` on a
panic), and concatenate between the fixed prefix and extension. -/
theorem plugin_lib_name_wasmedge (s : String) :
    plugin_lib_name ("wasmedge-" ++ s) =
      ((splitChar '-' s.data).mapM titlecase_segment).map
        (fun segs =>
          String.mk ("libwasmedgePluginWasmEdge".data ++ segs.flatten ++ ".dylib".data)) := by
  unfold plugin_lib_name
  rw [wasmedge_append_data]
  rw [wasi_nn_branch_not_taken, wasi_crypto_branch_not_taken, wasmedge_branch_taken]
  simp only [Bool.false_eq_true, if_false, if_true]
  rfl

/-- C1 counterexample: the mapping sends `"wasmedge-image"` to
`"libwasmedgePluginWasmEdgeImage.dylib"` — the fixed part of the name is
`"libwasmedgePluginWasmEdge"`, not `"libwasmedgePlugin"` as the claim
states. -/
theorem C1_counterexample :
    plugin_lib_name "wasmedge-image" = some "libwasmedgePluginWasmEdgeImage.dylib" ∧
    plugin_lib_name "wasmedge-image" ≠ some "libwasmedgePluginImage.dylib" := by
  constructor <;> decide

/-- C1 (amended): the mapping is a pure function of the plugin name; every
name with prefix `"wasi-nn-"` maps to the fixed WasiNN library name, and
`"wasmedge-image"` maps to `"libwasmedgePluginWasmEdgeImage.dylib"`, i.e.
the library name is `"libwasmedgePluginWasmEdge"` followed by the
title-cased hyphen-delimited segments after the `"wasmedge-"` prefix. -/
theorem C1_amended_lib_name_mapping (name : String)
    (h : "wasi-nn-".data.isPrefixOf name.data = true) :
    plugin_lib_name name = some "libwasmedgePluginWasiNN.dylib" ∧
    plugin_lib_name "wasmedge-image" = some "libwasmedgePluginWasmEdgeImage.dylib" ∧
    plugin_lib_name "wasmedge-aot-compiler" =
      some "libwasmedgePluginWasmEdgeAotCompiler.dylib" := by
  refine ⟨?_, by decide, by decide⟩
  unfold plugin_lib_name
  rw [if_pos h]

/-- Witness for C1 (amended) at `"wasi-nn-ggml"`. -/
theorem C1_amended_lib_name_mapping_witness :
    plugin_lib_name "wasi-nn-ggml" = some "libwasmedgePluginWasiNN.dylib" ∧
    plugin_lib_name "wasmedge-image" = some "libwasmedgePluginWasmEdgeImage.dylib" ∧
    plugin_lib_name "wasmedge-aot-compiler" =
      some "libwasmedgePluginWasmEdgeAotCompiler.dylib" :=
  C1_amended_lib_name_mapping "wasi-nn-ggml" (by decide)

/-- C10 counterexample: the title-casing step `.unwrap()`s the first
character of each hyphen-delimited segment, which panics on an empty
segment (modelled as `none`): `"wasmedge-"` and `"wasmedge-a--b"` both
abort instead of returning a `Result`. -/
theorem C10_counterexample :
    plugin_lib_name "wasmedge-" = none ∧
    plugin_lib_name "wasmedge-a--b" = none := by
  constructor <;> decide

/-- A segment on which the title-casing step cannot panic: nonempty, and
its first character is single-byte (ASCII), so the `s[1..]` byte slice
lands on a char boundary. -/
def ascii_headed (seg : List Char) : Bool :=
  match seg with
  | [] => false
  | c :: _ => decide (c.toNat < 128)

/-- Title-casing succeeds on every list of panic-free segments. -/
theorem mapM_titlecase_isSome (l : List (List Char))
    (h : ∀ seg ∈ l, ascii_headed seg = true) :
    (l.mapM titlecase_segment).isSome = true := by
  induction l with
  | nil => rfl
  | cons a rest ih =>
    obtain ⟨c, cs, rfl, hc⟩ : ∃ c cs, a = c :: cs ∧ c.toNat < 128 := by
      have ha := h a (List.mem_cons_self _ _)
      cases a with
      | nil => simp [ascii_headed] at ha
      | cons c cs =>
        refine ⟨c, cs, rfl, ?_⟩
        simpa [ascii_headed] using ha
    have hrest := ih (fun seg hs => h seg (List.mem_cons_of_mem _ hs))
    rw [List.mapM_cons]
    cases hmr : rest.mapM titlecase_segment with
    | none => rw [hmr] at hrest; simp at hrest
    | some v => simp [titlecase_segment, hmr, hc]

/-- C10 (amended): the library-name derivation returns a value (never
panics) for a plugin name `"wasmedge-" ++ s` whenever every
hyphen-delimited segment of `s` is nonempty and begins with a single-byte
(ASCII) character; an empty segment (such as in `"wasmedge-"` itself or
`"wasmedge-a--b"`) panics at the `.unwrap()`, and a segment beginning with
a multi-byte character (such as `"wasmedge-é"`) panics at the `s[1..]`
byte slice, instead of returning a `Result`. -/
theorem C10_amended_totality (s : String)
    (h : ∀ seg ∈ splitChar '-' s.data, ascii_headed seg = true) :
    (plugin_lib_name ("wasmedge-" ++ s)).isSome = true ∧
    plugin_lib_name "wasmedge-é" = none := by
  refine ⟨?_, by decide⟩
  rw [plugin_lib_name_wasmedge]
  cases hm : (splitChar '-' s.data).mapM titlecase_segment with
  | none =>
    have := mapM_titlecase_isSome (splitChar '-' s.data) h
    rw [hm] at this
    simp at this
  | some v => simp

/-- Witness for C10 (amended) at `"wasmedge-image"`. -/
theorem C10_amended_totality_witness :
    (plugin_lib_name ("wasmedge-" ++ "image")).isSome = true ∧
    plugin_lib_name "wasmedge-é" = none :=
  C10_amended_totality "image" (by decide)

/-- C5: `install_plugin` attempts the primary URL; exactly when that
download fails it attempts one alternate URL, which is the primary with the
version segment embedded in the file name omitted; and when both downloads
fail it returns the terminal error, whose message names the plugin, the
platform, and the release page for the runtime version.  At most two URLs
are ever attempted. -/
theorem C5_install_plugin_fallback (download_ok extract_ok : String → Bool)
    (rv : String) (p : Platform) (name : String) :
    (install_plugin download_ok extract_ok rv p name).attempts =
      (if download_ok (plugin_primary_url rv (url_plugin_name name) (get_platform_string p)) then
        [plugin_primary_url rv (url_plugin_name name) (get_platform_string p)]
      else
        [plugin_primary_url rv (url_plugin_name name) (get_platform_string p),
          plugin_alt_url rv (url_plugin_name name) (get_platform_string p)]) ∧
    (∃ pre post,
      plugin_primary_url rv (url_plugin_name name) (get_platform_string p) =
        pre ++ ("-" ++ rv) ++ post ∧
      plugin_alt_url rv (url_plugin_name name) (get_platform_string p) = pre ++ post) ∧
    (download_ok (plugin_primary_url rv (url_plugin_name name) (get_platform_string p)) = false →
      download_ok (plugin_alt_url rv (url_plugin_name name) (get_platform_string p)) = false →
      (install_plugin download_ok extract_ok rv p name).result =
        .error (plugin_not_found_msg name p rv)) ∧
    (∃ x y, plugin_not_found_msg name p rv = x ++ name ++ y) ∧
    (∃ x y, plugin_not_found_msg name p rv =
      x ++ (p.os.display ++ " " ++ p.arch.display) ++ y) ∧
    (∃ x, plugin_not_found_msg name p rv =
      x ++ ("https://github.com/WasmEdge/WasmEdge/releases/tag/" ++ rv)) ∧
    (install_plugin download_ok extract_ok rv p name).attempts.length ≤ 2 := by
  refine ⟨?_, ?_, ?_, ?_, ?_, ?_, ?_⟩
  · unfold install_plugin
    cases h1 : download_ok (plugin_primary_url rv (url_plugin_name name) (get_platform_string p)) with
    | true =>
      cases h2 : extract_ok (plugin_primary_url rv (url_plugin_name name) (get_platform_string p)) with
      | true => simp [h1, h2]
      | false => simp [h1, h2]
    | false =>
      cases h2 : download_ok (plugin_alt_url rv (url_plugin_name name) (get_platform_string p)) with
      | true =>
        cases h3 : extract_ok (plugin_alt_url rv (url_plugin_name name) (get_platform_string p)) with
        | true => simp [h1, h2, h3]
        | false => simp [h1, h2, h3]
      | false => simp [h1, h2]
  · refine ⟨"https://github.com/WasmEdge/WasmEdge/releases/download/" ++ rv ++
      "/WasmEdge-plugin-" ++ url_plugin_name name,
      "-" ++ get_platform_string p ++ ".tar.gz", ?_, ?_⟩
    · unfold plugin_primary_url
      simp [String.append_assoc]
    · unfold plugin_alt_url
      simp [String.append_assoc]
  · intro h1 h2
    unfold install_plugin
    simp [h1, h2]
  · exact ⟨"Failed to install plugin '",
      "'. The plugin may not be available for your platform (" ++ p.os.display ++
        " " ++ p.arch.display ++
        ") or the specified version. Available plugins for your platform can be found at: https://github.com/WasmEdge/WasmEdge/releases/tag/" ++
        rv,
      by unfold plugin_not_found_msg; simp [String.append_assoc]⟩
  · exact ⟨"Failed to install plugin '" ++ name ++
      "'. The plugin may not be available for your platform (",
      ") or the specified version. Available plugins for your platform can be found at: https://github.com/WasmEdge/WasmEdge/releases/tag/" ++
        rv,
      by unfold plugin_not_found_msg; simp [String.append_assoc]⟩
  · refine ⟨"Failed to install plugin '" ++ name ++
      "'. The plugin may not be available for your platform (" ++ p.os.display ++
      " " ++ p.arch.display ++
      ") or the specified version. Available plugins for your platform can be found at: ", ?_⟩
    have hsplit : ((") or the specified version. Available plugins for your platform can be found at: https://github.com/WasmEdge/WasmEdge/releases/tag/" : String)) =
        ") or the specified version. Available plugins for your platform can be found at: " ++
          "https://github.com/WasmEdge/WasmEdge/releases/tag/" := rfl
    unfold plugin_not_found_msg
    rw [hsplit]
    simp only [String.append_assoc]
  · unfold install_plugin
    cases h1 : download_ok (plugin_primary_url rv (url_plugin_name name) (get_platform_string p)) with
    | true =>
      cases h2 : extract_ok (plugin_primary_url rv (url_plugin_name name) (get_platform_string p)) with
      | true => simp [h1, h2]
      | false => simp [h1, h2]
    | false =>
      cases h2 : download_ok (plugin_alt_url rv (url_plugin_name name) (get_platform_string p)) with
      | true =>
        cases h3 : extract_ok (plugin_alt_url rv (url_plugin_name name) (get_platform_string p)) with
        | true => simp [h1, h2, h3]
        | false => simp [h1, h2, h3]
      | false => simp [h1, h2]

/-- Witness for C5: with every download failing, `install_plugin` for
`"wasi-nn-ggml"` returns the terminal error. -/
theorem C5_install_plugin_fallback_witness :
    (install_plugin (fun _ => false) (fun _ => true) "0.14.1"
        (Platform.mk (.Linux .Ubuntu) .X86_64) "wasi-nn-ggml").result =
      .error (plugin_not_found_msg "wasi-nn-ggml"
        (Platform.mk (.Linux .Ubuntu) .X86_64) "0.14.1") :=
  (C5_install_plugin_fallback (fun _ => false) (fun _ => true) "0.14.1"
    (Platform.mk (.Linux .Ubuntu) .X86_64) "wasi-nn-ggml").2.2.1 rfl rfl

/-- C8: installing version `"0.14.1"` on Linux/Ubuntu/x86_64 builds exactly
the documented download URL; the environment script is written at
`<install>/env`, and on Linux (either distro) its content contains a
newline-delimited line that begins with `export LD_LIBRARY_PATH=`. -/
theorem C8_install_scenario (install_path : String) (d : LinuxDistro) :
    install_download_url (Platform.mk (.Linux .Ubuntu) .X86_64) "0.14.1" =
      "https://github.com/WasmEdge/WasmEdge/releases/download/0.14.1/WasmEdge-0.14.1-ubuntu20.04_x86_64.tar.gz" ∧
    env_file_path install_path = install_path ++ "/env" ∧
    (∃ pre mid, env_file_content (.Linux d) install_path =
      pre ++ "\n" ++ ("export LD_LIBRARY_PATH=" ++ mid ++ "\n")) := by
  refine ⟨by decide, rfl, ?_⟩
  refine ⟨"#!/bin/sh\n" ++ "export PATH=" ++ install_path ++ "/bin" ++ ":$PATH",
    install_path ++ "/lib" ++ ":$LD_LIBRARY_PATH", ?_⟩
  have h1 : ((":$PATH\n" : String)) = ":$PATH" ++ "\n" := rfl
  have h2 : ((":$LD_LIBRARY_PATH\n" : String)) = ":$LD_LIBRARY_PATH" ++ "\n" := rfl
  unfold env_file_content
  rw [h1, h2]
  simp only [String.append_assoc]

/-- C2 counterexample: for version `"0.14.1"` on Linux/Ubuntu/x86_64 the
extracted root the code redistributes from is `WasmEdge-Ubuntu-x86_64`
under the temp directory — the `Display` renderings of OS and
architecture, with no version segment — not the
`WasmEdge-<version>-<os-token>-<arch-token>` name of the claim. -/
theorem C2_counterexample :
    extracted_dir "/tmp" (Platform.mk (.Linux .Ubuntu) .X86_64) =
      "/tmp/WasmEdge-Ubuntu-x86_64" ∧
    extracted_dir "/tmp" (Platform.mk (.Linux .Ubuntu) .X86_64) ≠
      "/tmp/WasmEdge-0.14.1-ubuntu20.04-x86_64" := by
  constructor <;> decide

/-- C2 (amended): the extracted root is named
`WasmEdge-<os-display>-<arch-display>` (the `Display` renderings; no
version segment) under the temp directory, and redistribution routes each
subdirectory to its own destination: every move takes a `bin` entry to
`install/bin`, a `lib64`-else-`lib` entry to `install/lib`, or an
`include` entry to `install/include`, preserving the entry name — and
conversely every entry of each listed subdirectory is so moved. -/
theorem C2_amended_extracted_root (temp ip : String) (p : Platform) (l64 : Bool)
    (bins libs incs : List String) :
    extracted_dir temp p =
      temp ++ "/WasmEdge-" ++ p.os.display ++ "-" ++ p.arch.display ∧
    (∀ mv ∈ extract_archive_moves temp ip p l64 (some bins) (some libs) (some incs),
      ∃ e,
        (e ∈ bins ∧ mv = (extracted_dir temp p ++ "/bin" ++ "/" ++ e,
          ip ++ "/bin" ++ "/" ++ e)) ∨
        (e ∈ libs ∧ mv = (extracted_dir temp p ++
            (if l64 then "/lib64" else "/lib") ++ "/" ++ e,
          ip ++ "/lib" ++ "/" ++ e)) ∨
        (e ∈ incs ∧ mv = (extracted_dir temp p ++ "/include" ++ "/" ++ e,
          ip ++ "/include" ++ "/" ++ e))) ∧
    (∀ e ∈ bins,
      (extracted_dir temp p ++ "/bin" ++ "/" ++ e, ip ++ "/bin" ++ "/" ++ e) ∈
        extract_archive_moves temp ip p l64 (some bins) (some libs) (some incs)) ∧
    (∀ e ∈ libs,
      (extracted_dir temp p ++ (if l64 then "/lib64" else "/lib") ++ "/" ++ e,
          ip ++ "/lib" ++ "/" ++ e) ∈
        extract_archive_moves temp ip p l64 (some bins) (some libs) (some incs)) ∧
    (∀ e ∈ incs,
      (extracted_dir temp p ++ "/include" ++ "/" ++ e, ip ++ "/include" ++ "/" ++ e) ∈
        extract_archive_moves temp ip p l64 (some bins) (some libs) (some incs)) := by
  refine ⟨rfl, ?_, ?_, ?_, ?_⟩
  · intro mv hmv
    unfold extract_archive_moves listing_moves at hmv
    simp only [List.mem_append, List.mem_map] at hmv
    rcases hmv with (⟨e, he, rfl⟩ | ⟨e, he, rfl⟩) | ⟨e, he, rfl⟩
    · exact ⟨e, Or.inl ⟨he, rfl⟩⟩
    · cases l64 with
      | true => exact ⟨e, Or.inr (Or.inl ⟨he, rfl⟩)⟩
      | false => exact ⟨e, Or.inr (Or.inl ⟨he, rfl⟩)⟩
    · exact ⟨e, Or.inr (Or.inr ⟨he, rfl⟩)⟩
  · intro e he
    unfold extract_archive_moves listing_moves
    simp only [List.mem_append, List.mem_map]
    exact Or.inl (Or.inl ⟨e, he, rfl⟩)
  · intro e he
    unfold extract_archive_moves listing_moves
    simp only [List.mem_append, List.mem_map]
    cases l64 with
    | true => exact Or.inl (Or.inr ⟨e, he, rfl⟩)
    | false => exact Or.inl (Or.inr ⟨e, he, rfl⟩)
  · intro e he
    unfold extract_archive_moves listing_moves
    simp only [List.mem_append, List.mem_map]
    exact Or.inr ⟨e, he, rfl⟩

/-- Witness for C2 (amended): a concrete `bin` entry is moved into the
install tree's `bin` and a concrete `lib` entry into the install tree's
`lib`, names preserved. -/
theorem C2_amended_extracted_root_witness :
    (extracted_dir "/t" (Platform.mk (.Linux .Ubuntu) .X86_64) ++ "/bin" ++ "/" ++ "wasmedge",
      "/i" ++ "/bin" ++ "/" ++ "wasmedge") ∈
      extract_archive_moves "/t" "/i" (Platform.mk (.Linux .Ubuntu) .X86_64) false
        (some ["wasmedge"]) (some ["libwasmedge.so"]) (some []) ∧
    (extracted_dir "/t" (Platform.mk (.Linux .Ubuntu) .X86_64) ++
        (if false then "/lib64" else "/lib") ++ "/" ++ "libwasmedge.so",
      "/i" ++ "/lib" ++ "/" ++ "libwasmedge.so") ∈
      extract_archive_moves "/t" "/i" (Platform.mk (.Linux .Ubuntu) .X86_64) false
        (some ["wasmedge"]) (some ["libwasmedge.so"]) (some []) :=
  ⟨(C2_amended_extracted_root "/t" "/i" (Platform.mk (.Linux .Ubuntu) .X86_64) false
      ["wasmedge"] ["libwasmedge.so"] []).2.2.1 "wasmedge" (by decide),
   (C2_amended_extracted_root "/t" "/i" (Platform.mk (.Linux .Ubuntu) .X86_64) false
      ["wasmedge"] ["libwasmedge.so"] []).2.2.2.1 "libwasmedge.so" (by decide)⟩

/-- The asset loop of `list_available_plugins` equals the phase-separated
specification (filter, derive, de-duplicate keeping first), for any
starting `seen` set. -/
theorem list_available_plugins_go_spec (rv ps : String) (assets : List ReleaseAsset) :
    ∀ seen : List String,
      list_available_plugins_go rv ps seen assets =
        dedupe_by_name seen
          ((assets.filter (fun a => asset_eligible a.name)).filterMap
            (fun a => (asset_plugin_name a.name).map
              (fun pname => (pname, rv, decide (ps.data <:+: a.name.data))))) := by
  induction assets with
  | nil => intro seen; rfl
  | cons a rest ih =>
    intro seen
    cases he : asset_eligible a.name with
    | false =>
      simp only [list_available_plugins_go, he, Bool.false_eq_true, if_false,
        List.filter_cons, ih]
    | true =>
      cases hp : asset_plugin_name a.name with
      | none =>
        simp only [list_available_plugins_go, he, hp, if_true, List.filter_cons,
          List.filterMap_cons, Option.map_none', ih]
      | some pn =>
        cases hs : seen.contains pn with
        | true =>
          simp only [list_available_plugins_go, he, hp, hs, if_true, List.filter_cons,
            List.filterMap_cons, Option.map_some', dedupe_by_name, ih]
        | false =>
          simp only [list_available_plugins_go, he, hp, hs, if_true, Bool.false_eq_true,
            if_false, List.filter_cons, List.filterMap_cons, Option.map_some',
            dedupe_by_name, ih]

/-- C7: `list_available_plugins` computes exactly the specification-level
description — the assets considered are exactly those whose name starts
with `"WasmEdge-plugin-"` and ends with `".tar.gz"`; an entry is derived
from each one with at least 4 hyphen-delimited segments by joining
segments `[2, len-2)` with `"-"` (fewer than 4 segments is skipped);
compatibility is exactly "asset name contains the platform token"; and
duplicate plugin names keep the first occurrence. -/
theorem C7_list_available_plugins (rv ps : String) (assets : List ReleaseAsset) :
    list_available_plugins rv ps assets = list_available_plugins_spec rv ps assets :=
  list_available_plugins_go_spec rv ps assets []

end Wasmedgeup
